import Mathlib

/-
Verification of the seed_fetcher resource cache.

The development shallowly embeds the cache engine of
`src/seed_fetcher/src/lib.rs` (the `ResourceStore` type and its `update`,
`acquire_and_fetch`, `acquire` and `acquire_now` operations), the fetch
orchestration task, and the policy-attribute mapping of the
`seed_fetcher_derive` macro (`src/seed_fetcher_derive/src/lib.rs`).

Modelling conventions:
- `HashMap<Resource, CacheEntry>` becomes a function `Resource → Option CacheEntry`.
- The type-erased `Arc<dyn Any>` value becomes `DynAny`, a pair of a runtime
  type tag and a value; `downcast_ref::<T>` becomes a tag comparison.
  A Rust panic (failed downcast) is modelled as the result `none`.
- Side effects on `orders` (perform_cmd, notify) are returned as explicit
  lists of `Eff` values.
-/

namespace SeedFetcher

/-- Resource keys are strings (`pub type Resource = &'static str`). -/
abbrev Resource := String

/-- Freshness of a cached resource (enum `Freshness` in lib.rs). -/
inductive Freshness where
  | Fresh
  | Dirty
  | BeingRefetched
deriving DecidableEq, Repr

/-- Negotiated content encoding (enum `ContentType` in lib.rs). -/
inductive ContentType where
  | Json
  | MsgPack
deriving DecidableEq, Repr

/-- Model of `Arc<dyn Any>`: a runtime type tag together with a value.
`downcast` succeeds exactly when the tag matches the requested type. -/
structure DynAny where
  ty : Nat
  val : Nat
deriving DecidableEq, Repr

/-- Model of `downcast_ref::<T>` on the type-erased stored value. -/
def downcast (T : Nat) (d : DynAny) : Option Nat :=
  if d.ty = T then some d.val else none

/-- Struct `CachedResource` in lib.rs: raw bytes, content type, freshness,
and the type-erased deserialized value. -/
structure CachedResource where
  raw : List Nat
  contentType : ContentType
  freshness : Freshness
  deserialized : DynAny
deriving DecidableEq, Repr

/-- Enum `CacheEntry` in lib.rs. `WillBeFetched` is the Pending state. -/
inductive CacheEntry where
  | WillBeFetched
  | Fetched (r : CachedResource)
deriving DecidableEq, Repr

/-- Enum `NotAvailable` in lib.rs: the two reasons a read can fail. -/
inductive NotAvailable where
  | Stale
  | NotFetched
deriving DecidableEq, Repr

/-- Enum `CachePolicy` in lib.rs. -/
inductive CachePolicy where
  | MustBeFresh
  | MayBeStale
  | SilentRefetch
deriving DecidableEq, Repr

/-- Enum `ErrorKind` in lib.rs (the `FetchError` cause is abstracted away). -/
inductive ErrorKind where
  | DeserializeError
  | FetchError
  | UnsupportedContentType (contentType : String)
deriving DecidableEq, Repr

/-- Enum `ResourceMsg` in lib.rs: the four inbound message kinds of the
single state-transition entry point. The deserialize closure carried by
`Request` is irrelevant to the store transition and is omitted. -/
inductive ResourceMsg where
  | Request (resource : Resource)
  | Fetched (resource : Resource) (data : CachedResource)
  | Error (resource : Resource) (kind : ErrorKind)
  | MarkDirty (resource : Resource)
deriving DecidableEq, Repr

/-- Observable side effects on `orders`:
`request` is the `event::Request` notified by `acquire`;
`performFetch` is the `perform_cmd` dispatch of the fetch task in `update`;
`notifyFetched` and `notifyError` are the notifications of `update`. -/
inductive Eff where
  | request (resource : Resource)
  | performFetch (resource : Resource)
  | notifyFetched (resource : Resource)
  | notifyError (resource : Resource) (kind : ErrorKind)
deriving DecidableEq, Repr

/-- The cache map (`HashMap<Resource, CacheEntry>`), as a function. -/
abbrev Store := Resource → Option CacheEntry

/-- `HashMap::insert`. -/
def Store.insert (s : Store) (k : Resource) (v : CacheEntry) : Store :=
  fun r => if r = k then some v else s r

/-- The empty cache (`ResourceStore::new`). -/
def Store.empty : Store := fun _ => none

/-- `ResourceStore::update` (lib.rs lines 134-247): the single mutating
entry point, returning the new cache and the emitted effects. -/
def update (store : Store) (msg : ResourceMsg) : Store × List Eff :=
  match msg with
  | .Request resource =>
    match store resource with
    | some .WillBeFetched => (store, [])
    | some (.Fetched r) =>
      match r.freshness with
      | .Dirty =>
        (store.insert resource (.Fetched { r with freshness := .BeingRefetched }),
          [.performFetch resource])
      | _ => (store, [])
    | none =>
      (store.insert resource .WillBeFetched, [.performFetch resource])
  | .Fetched resource data =>
    (store.insert resource (.Fetched data), [.notifyFetched resource])
  | .Error resource kind =>
    (store, [.notifyError resource kind])
  | .MarkDirty resource =>
    match store resource with
    | some (.Fetched r) =>
      (store.insert resource (.Fetched { r with freshness := .Dirty }), [])
    | _ => (store, [])

/-- `ResourceStore::acquire_and_fetch` (lib.rs lines 253-291): the read
decision. Returns `none` when the downcast panics; otherwise the Result
and the boolean fetch-dispatch decision. `T` is the caller's type tag. -/
def acquire_and_fetch (store : Store) (resource : Resource) (T : Nat)
    (policy : CachePolicy) : Option (Except NotAvailable Nat × Bool) :=
  let step1 : Except (NotAvailable × Bool) CachedResource :=
    match store resource with
    | none => .error (.NotFetched, true)
    | some (.Fetched r) => .ok r
    | some .WillBeFetched => .error (.NotFetched, false)
  let step2 : Except (NotAvailable × Bool) (CachedResource × Bool) :=
    step1.bind fun r =>
      match r.freshness, policy with
      | .Fresh, _ => .ok (r, false)
      | _, .MayBeStale => .ok (r, false)
      | .Dirty, .SilentRefetch => .ok (r, true)
      | .BeingRefetched, .SilentRefetch => .ok (r, false)
      | .BeingRefetched, .MustBeFresh => .error (.Stale, false)
      | .Dirty, .MustBeFresh => .error (.Stale, true)
  match step2 with
  | .ok (r, fetch) =>
    match downcast T r.deserialized with
    | some d => some (.ok d, fetch)
    | none => none
  | .error (e, fetch) => some (.error e, fetch)

/-- `ResourceStore::acquire` (lib.rs lines 293-320): the read decision plus
the `event::Request` notification when a fetch was decided. -/
def acquire (store : Store) (resource : Resource) (T : Nat)
    (policy : CachePolicy) : Option (Except NotAvailable Nat × List Eff) :=
  (acquire_and_fetch store resource T policy).map fun p =>
    (p.1, if p.2 then [Eff.request resource] else [])

/-- `ResourceStore::acquire_now` (lib.rs lines 322-331): the read half only. -/
def acquire_now (store : Store) (resource : Resource) (T : Nat)
    (policy : CachePolicy) : Option (Except NotAvailable Nat) :=
  (acquire_and_fetch store resource T policy).map Prod.fst

/-- The possible responses seen by the fetch task: a transport error, or
bytes together with the optional content-type header value. -/
structure FetchOk where
  bytes : List Nat
  contentTypeHeader : Option String
deriving DecidableEq, Repr

/-- The async fetch task spawned by `update` on a `Request` message
(lib.rs lines 155-231): content-type negotiation, deserialization via the
carried closure, and resolution to a `Fetched` or `Error` message. -/
def fetchTask (resource : Resource)
    (deserialize : ContentType → List Nat → Except Unit DynAny)
    (response : Except Unit FetchOk) : ResourceMsg :=
  match response with
  | .error _ => .Error resource .FetchError
  | .ok fo =>
    match fo.contentTypeHeader with
    | none => .Error resource (.UnsupportedContentType "")
    | some ct =>
      if ct = "application/json" then
        match deserialize .Json fo.bytes with
        | .ok d =>
          .Fetched resource
            { raw := fo.bytes, contentType := .Json,
              freshness := .Fresh, deserialized := d }
        | .error _ => .Error resource .DeserializeError
      else if ct = "application/msgpack" then
        match deserialize .MsgPack fo.bytes with
        | .ok d =>
          .Fetched resource
            { raw := fo.bytes, contentType := .MsgPack,
              freshness := .Fresh, deserialized := d }
        | .error _ => .Error resource .DeserializeError
      else
        .Error resource (.UnsupportedContentType ct)

/-- The policy-attribute mapping of the `Resources` derive macro
(src/seed_fetcher_derive/src/lib.rs lines 67-86): the argument is the
string of the `#[policy = "..."]` attribute when present; `none` models a
panic of the macro on an invalid policy string. -/
def derivePolicy : Option String → Option CachePolicy
  | none => some .MustBeFresh
  | some s =>
    if s = "MustBeFresh" then some .MustBeFresh
    else if s = "MayBeStale" then some .MustBeFresh
    else if s = "SilentRefetch" then some .SilentRefetch
    else none

instance {ε α : Type} [DecidableEq ε] [DecidableEq α] :
    DecidableEq (Except ε α) := fun a b =>
  match a, b with
  | .error e, .error e' =>
    if h : e = e' then .isTrue (by rw [h]) else .isFalse (by simp [h])
  | .ok v, .ok v' =>
    if h : v = v' then .isTrue (by rw [h]) else .isFalse (by simp [h])
  | .error _, .ok _ => .isFalse (by simp)
  | .ok _, .error _ => .isFalse (by simp)

example :
    acquire Store.empty "k" 0 .MustBeFresh =
      some (.error .NotFetched, [Eff.request "k"]) := by decide

example :
    update Store.empty (.Request "k") =
      (Store.empty.insert "k" .WillBeFetched, [Eff.performFetch "k"]) := by
  simp [update, Store.empty]

/-- Claim C1: the complete decision table of `acquire`. No entry gives
`Err(NotFetched)` with one fetch request dispatched; a Pending entry gives
`Err(NotFetched)` with no dispatch; `Fetched` entries follow the
freshness × policy table, including the asymmetry that `BeingRefetched`
never triggers a second dispatch while `Dirty` does under
SilentRefetch/MustBeFresh. The Ok cases assume the stored value's runtime
type tag matches the requested tag `T`. -/
theorem acquire_decision_table (store : Store) (resource : Resource)
    (T : Nat) (policy : CachePolicy) :
    (store resource = none →
      acquire store resource T policy =
        some (.error .NotFetched, [Eff.request resource])) ∧
    (store resource = some .WillBeFetched →
      acquire store resource T policy = some (.error .NotFetched, [])) ∧
    (∀ cr, store resource = some (.Fetched cr) → cr.deserialized.ty = T →
      (cr.freshness = .Fresh →
        acquire store resource T policy =
          some (.ok cr.deserialized.val, [])) ∧
      (cr.freshness = .Dirty →
        (policy = .MayBeStale →
          acquire store resource T policy =
            some (.ok cr.deserialized.val, [])) ∧
        (policy = .SilentRefetch →
          acquire store resource T policy =
            some (.ok cr.deserialized.val, [Eff.request resource])) ∧
        (policy = .MustBeFresh →
          acquire store resource T policy =
            some (.error .Stale, [Eff.request resource]))) ∧
      (cr.freshness = .BeingRefetched →
        (policy = .MayBeStale →
          acquire store resource T policy =
            some (.ok cr.deserialized.val, [])) ∧
        (policy = .SilentRefetch →
          acquire store resource T policy =
            some (.ok cr.deserialized.val, [])) ∧
        (policy = .MustBeFresh →
          acquire store resource T policy =
            some (.error .Stale, [])))) := by
  refine ⟨?_, ?_, ?_⟩
  · intro h
    simp [acquire, acquire_and_fetch, h, Except.bind]
  · intro h
    simp [acquire, acquire_and_fetch, h, Except.bind]
  · intro cr h hty
    refine ⟨?_, ?_, ?_⟩
    · intro hf
      cases policy <;>
        simp [acquire, acquire_and_fetch, h, hf, Except.bind, downcast, hty]
    · intro hf
      refine ⟨?_, ?_, ?_⟩ <;> intro hp <;>
        simp [acquire, acquire_and_fetch, h, hf, hp, Except.bind, downcast, hty]
    · intro hf
      refine ⟨?_, ?_, ?_⟩ <;> intro hp <;>
        simp [acquire, acquire_and_fetch, h, hf, hp, Except.bind, downcast, hty]

/-- Claim C1 witness: the table at a concrete Dirty entry under
SilentRefetch. -/
theorem acquire_decision_table_witness :
    acquire (Store.empty.insert "k"
        (.Fetched { raw := [1], contentType := .Json,
                    freshness := .Dirty, deserialized := ⟨5, 42⟩ }))
      "k" 5 .SilentRefetch = some (.ok 42, [Eff.request "k"]) :=
  (((acquire_decision_table
      (Store.empty.insert "k"
        (.Fetched { raw := [1], contentType := .Json,
                    freshness := .Dirty, deserialized := ⟨5, 42⟩ }))
      "k" 5 .SilentRefetch).2.2
    { raw := [1], contentType := .Json,
      freshness := .Dirty, deserialized := ⟨5, 42⟩ }
    (by decide) rfl).2.1 rfl).2.1 rfl

/-- Claim C2: processing a `Request` message: absent entry creates Pending
and emits one fetch command; a Dirty `Fetched` entry becomes
`BeingRefetched` and one fetch command is emitted; Pending,
`BeingRefetched` and Fresh entries change nothing and emit nothing. -/
theorem update_request_cases (store : Store) (resource : Resource) :
    (store resource = none →
      update store (.Request resource) =
        (store.insert resource .WillBeFetched, [Eff.performFetch resource])) ∧
    (∀ cr, store resource = some (.Fetched cr) → cr.freshness = .Dirty →
      update store (.Request resource) =
        (store.insert resource
            (.Fetched { cr with freshness := .BeingRefetched }),
          [Eff.performFetch resource])) ∧
    (store resource = some .WillBeFetched →
      update store (.Request resource) = (store, [])) ∧
    (∀ cr, store resource = some (.Fetched cr) →
      cr.freshness = .Fresh ∨ cr.freshness = .BeingRefetched →
      update store (.Request resource) = (store, [])) := by
  refine ⟨?_, ?_, ?_, ?_⟩
  · intro h
    simp [update, h]
  · intro cr h hf
    simp [update, h, hf]
  · intro h
    simp [update, h]
  · intro cr h hf
    rcases hf with hf | hf <;> simp [update, h, hf]

/-- Claim C2 witness: a Dirty entry transitions to `BeingRefetched` with
one fetch command. -/
theorem update_request_cases_witness :
    update (Store.empty.insert "k"
        (.Fetched { raw := [], contentType := .Json,
                    freshness := .Dirty, deserialized := ⟨0, 0⟩ }))
      (.Request "k") =
      ((Store.empty.insert "k"
          (.Fetched { raw := [], contentType := .Json,
                      freshness := .Dirty, deserialized := ⟨0, 0⟩ })).insert
        "k"
        (.Fetched { raw := [], contentType := .Json,
                    freshness := .BeingRefetched, deserialized := ⟨0, 0⟩ }),
        [Eff.performFetch "k"]) :=
  (update_request_cases
      (Store.empty.insert "k"
        (.Fetched { raw := [], contentType := .Json,
                    freshness := .Dirty, deserialized := ⟨0, 0⟩ }))
      "k").2.1
    { raw := [], contentType := .Json,
      freshness := .Dirty, deserialized := ⟨0, 0⟩ }
    (by decide) rfl

/-- Claim C6: a `MarkDirty` message sets the freshness of a `Fetched`
entry to Dirty whatever it was, and leaves the store unchanged (and emits
nothing) when the entry is absent or Pending. -/
theorem update_markDirty_cases (store : Store) (resource : Resource) :
    (∀ cr, store resource = some (.Fetched cr) →
      update store (.MarkDirty resource) =
        (store.insert resource (.Fetched { cr with freshness := .Dirty }),
          [])) ∧
    (store resource = none →
      update store (.MarkDirty resource) = (store, [])) ∧
    (store resource = some .WillBeFetched →
      update store (.MarkDirty resource) = (store, [])) := by
  refine ⟨?_, ?_, ?_⟩
  · intro cr h
    simp [update, h]
  · intro h
    simp [update, h]
  · intro h
    simp [update, h]

/-- Claim C6 witness: `MarkDirty` on a `BeingRefetched` entry yields
Dirty. -/
theorem update_markDirty_cases_witness :
    update (Store.empty.insert "k"
        (.Fetched { raw := [], contentType := .Json,
                    freshness := .BeingRefetched, deserialized := ⟨0, 0⟩ }))
      (.MarkDirty "k") =
      ((Store.empty.insert "k"
          (.Fetched { raw := [], contentType := .Json,
                      freshness := .BeingRefetched, deserialized := ⟨0, 0⟩ })).insert
        "k"
        (.Fetched { raw := [], contentType := .Json,
                    freshness := .Dirty, deserialized := ⟨0, 0⟩ }),
        []) :=
  (update_markDirty_cases
      (Store.empty.insert "k"
        (.Fetched { raw := [], contentType := .Json,
                    freshness := .BeingRefetched, deserialized := ⟨0, 0⟩ }))
      "k").1
    { raw := [], contentType := .Json,
      freshness := .BeingRefetched, deserialized := ⟨0, 0⟩ }
    (by decide)

/-- Claim C7: processing an `Error` message emits exactly one error
notification carrying the classification, and the cache map is returned
unchanged: no entry is created, removed, or modified. -/
theorem update_error_atomic (store : Store) (resource : Resource)
    (kind : ErrorKind) :
    update store (.Error resource kind) =
      (store, [Eff.notifyError resource kind]) := rfl

/-- Claim C8: `acquire_now` returns exactly the Result that `acquire`
returns on the same state (including the panic case), and by construction
emits no messages and performs no dispatch. -/
theorem acquire_now_refines_acquire (store : Store) (resource : Resource)
    (T : Nat) (policy : CachePolicy) :
    acquire_now store resource T policy =
      (acquire store resource T policy).map Prod.fst := by
  simp [acquire_now, acquire, Option.map_map]
  rfl

/-- Claim C5: every `Fetched` message produced by the fetch task carries a
Fresh payload, and processing it at `update` overwrites (or creates) the
entry for its key with that `Fetched` data and emits a fetched
notification, whatever the prior state of the store. -/
theorem fetched_overwrites_fresh (store : Store) (resource r' : Resource)
    (deserialize : ContentType → List Nat → Except Unit DynAny)
    (response : Except Unit FetchOk) (data : CachedResource)
    (h : fetchTask resource deserialize response = .Fetched r' data) :
    r' = resource ∧ data.freshness = .Fresh ∧
    update store (.Fetched r' data) =
      (store.insert r' (.Fetched data), [Eff.notifyFetched r']) := by
  refine ⟨?_, ?_, rfl⟩ <;>
  · rcases response with e | fo
    · simp [fetchTask] at h
    · rcases fo with ⟨bytes, cth⟩
      rcases cth with _ | ct
      · simp [fetchTask] at h
      · by_cases hjson : ct = "application/json"
        · rcases hd : deserialize .Json bytes with d | d
          · simp [fetchTask, hjson, hd] at h
          · simp [fetchTask, hjson, hd] at h
            simp [← h.1, ← h.2]
        · by_cases hmp : ct = "application/msgpack"
          · rcases hd : deserialize .MsgPack bytes with d | d
            · simp [fetchTask, hjson, hmp, hd] at h
            · simp [fetchTask, hjson, hmp, hd] at h
              simp [← h.1, ← h.2]
          · simp [fetchTask, hjson, hmp] at h

/-- Claim C5 witness: a concrete successful JSON fetch overwrites a Dirty
entry with a Fresh one and notifies. -/
theorem fetched_overwrites_fresh_witness :
    ("k" : Resource) = "k" ∧
    ({ raw := [7], contentType := .Json, freshness := .Fresh,
       deserialized := ⟨1, 7⟩ } : CachedResource).freshness = .Fresh ∧
    update (Store.empty.insert "k"
        (.Fetched { raw := [], contentType := .Json,
                    freshness := .Dirty, deserialized := ⟨1, 0⟩ }))
      (.Fetched "k"
        { raw := [7], contentType := .Json, freshness := .Fresh,
          deserialized := ⟨1, 7⟩ }) =
      ((Store.empty.insert "k"
          (.Fetched { raw := [], contentType := .Json,
                      freshness := .Dirty, deserialized := ⟨1, 0⟩ })).insert
        "k"
        (.Fetched { raw := [7], contentType := .Json, freshness := .Fresh,
                    deserialized := ⟨1, 7⟩ }),
        [Eff.notifyFetched "k"]) :=
  fetched_overwrites_fresh
    (Store.empty.insert "k"
      (.Fetched { raw := [], contentType := .Json,
                  freshness := .Dirty, deserialized := ⟨1, 0⟩ }))
    "k" "k" (fun _ _ => .ok ⟨1, 7⟩)
    (.ok { bytes := [7], contentTypeHeader := some "application/json" })
    { raw := [7], contentType := .Json, freshness := .Fresh,
      deserialized := ⟨1, 7⟩ }
    (by decide)

/-- The freshness × policy combinations under which `acquire` serves the
stored value (the Ok rows of the decision table). -/
def servesOk : Freshness → CachePolicy → Bool
  | .Fresh, _ => true
  | _, .MayBeStale => true
  | .Dirty, .SilentRefetch => true
  | .BeingRefetched, .SilentRefetch => true
  | _, _ => false

/-- Claim C9: on a `Fetched` entry whose stored value's runtime type tag
differs from the requested tag `T`, every `acquire` or `acquire_now` call
that reaches the value (a combination with `servesOk`) panics (result
`none`) instead of returning a recoverable error; when the tags match the
downcast succeeds and the stored value is returned. -/
theorem downcast_mismatch_fatal (store : Store) (resource : Resource)
    (T : Nat) (policy : CachePolicy) (cr : CachedResource)
    (h : store resource = some (.Fetched cr)) :
    (cr.deserialized.ty ≠ T → servesOk cr.freshness policy = true →
      acquire store resource T policy = none ∧
      acquire_now store resource T policy = none) ∧
    (cr.deserialized.ty = T → servesOk cr.freshness policy = true →
      ∃ effs, acquire store resource T policy =
          some (.ok cr.deserialized.val, effs) ∧
        acquire_now store resource T policy =
          some (.ok cr.deserialized.val)) := by
  constructor
  · intro hty hok
    cases hf : cr.freshness <;> cases hp : policy <;>
      simp [servesOk, hf, hp] at hok <;>
      simp [acquire, acquire_now, acquire_and_fetch, h, hf, hp,
        Except.bind, downcast, hty]
  · intro hty hok
    cases hf : cr.freshness <;> cases hp : policy <;>
      simp [servesOk, hf, hp] at hok <;>
      simp [acquire, acquire_now, acquire_and_fetch, h, hf, hp,
        Except.bind, downcast, hty]

/-- Claim C9 witness: a tag mismatch on a Fresh entry makes both accessors
panic. -/
theorem downcast_mismatch_fatal_witness :
    acquire (Store.empty.insert "k"
        (.Fetched { raw := [], contentType := .Json,
                    freshness := .Fresh, deserialized := ⟨3, 9⟩ }))
      "k" 4 .MayBeStale = none ∧
    acquire_now (Store.empty.insert "k"
        (.Fetched { raw := [], contentType := .Json,
                    freshness := .Fresh, deserialized := ⟨3, 9⟩ }))
      "k" 4 .MayBeStale = none :=
  (downcast_mismatch_fatal
      (Store.empty.insert "k"
        (.Fetched { raw := [], contentType := .Json,
                    freshness := .Fresh, deserialized := ⟨3, 9⟩ }))
      "k" 4 .MayBeStale
      { raw := [], contentType := .Json,
        freshness := .Fresh, deserialized := ⟨3, 9⟩ }
      (by decide)).1 (by decide) rfl

/-- Claim C10: the derive macro's policy mapping sends both "MustBeFresh"
and "MayBeStale" to MustBeFresh, sends "SilentRefetch" to SilentRefetch,
rejects every other string (macro panic, modelled as `none`), and defaults
to MustBeFresh when the attribute is absent. -/
theorem derive_policy_mapping :
    derivePolicy none = some .MustBeFresh ∧
    derivePolicy (some "MustBeFresh") = some .MustBeFresh ∧
    derivePolicy (some "MayBeStale") = some .MustBeFresh ∧
    derivePolicy (some "SilentRefetch") = some .SilentRefetch ∧
    ∀ s, s ≠ "MustBeFresh" → s ≠ "MayBeStale" → s ≠ "SilentRefetch" →
      derivePolicy (some s) = none := by
  refine ⟨rfl, by decide, by decide, by decide, ?_⟩
  intro s h1 h2 h3
  simp [derivePolicy, h1, h2, h3]

/-- Claim C10 witness: an invalid policy string is rejected. -/
theorem derive_policy_mapping_witness :
    derivePolicy (some "Eventually") = none :=
  derive_policy_mapping.2.2.2.2 "Eventually"
    (by decide) (by decide) (by decide)

/-- The whole system as seen by the dedup invariant: the cache plus, per
key, the number of dispatched fetch tasks whose result message has not yet
been delivered back. -/
structure SysState where
  store : Store
  inflight : Resource → Nat

/-- Increment a per-key counter. -/
def bumpUp (inf : Resource → Nat) (r : Resource) : Resource → Nat :=
  fun k => if k = r then inf k + 1 else inf k

/-- Decrement a per-key counter. -/
def bumpDown (inf : Resource → Nat) (r : Resource) : Resource → Nat :=
  fun k => if k = r then inf k - 1 else inf k

/-- Deliver one message to the entry point: run `update` on the cache, and
account for fetch tasks — a `Fetched`/`Error` message is the resolution of
one dispatched fetch, and each `performFetch` effect dispatches one. -/
def deliver (s : SysState) (msg : ResourceMsg) : SysState :=
  let p := update s.store msg
  let inf0 :=
    match msg with
    | .Fetched r _ => bumpDown s.inflight r
    | .Error r _ => bumpDown s.inflight r
    | _ => s.inflight
  let inf := p.2.foldl
    (fun acc e =>
      match e with
      | .performFetch r => bumpUp acc r
      | _ => acc) inf0
  ⟨p.1, inf⟩

/-- The initial system: empty cache, no fetch in flight. -/
def initSys : SysState := ⟨Store.empty, fun _ => 0⟩

/-- States reachable from the empty store by any interleaving of request,
mark-dirty, and fetch-resolution messages. `Fetched`/`Error` messages are
resolutions of in-flight fetch tasks, so they require one to be
outstanding. (`acquire` does not mutate the store; the `Request` messages
it notifies are covered by the `request` step.) -/
inductive Reachable : SysState → Prop where
  | init : Reachable initSys
  | request (s : SysState) (r : Resource) :
      Reachable s → Reachable (deliver s (.Request r))
  | fetched (s : SysState) (r : Resource) (data : CachedResource) :
      Reachable s → 0 < s.inflight r → Reachable (deliver s (.Fetched r data))
  | fetchErr (s : SysState) (r : Resource) (kind : ErrorKind) :
      Reachable s → 0 < s.inflight r → Reachable (deliver s (.Error r kind))
  | markDirty (s : SysState) (r : Resource) :
      Reachable s → Reachable (deliver s (.MarkDirty r))

/-- Reachability restricted to runs in which no mark-dirty message is
processed for a key with an in-flight fetch. -/
inductive ReachableND : SysState → Prop where
  | init : ReachableND initSys
  | request (s : SysState) (r : Resource) :
      ReachableND s → ReachableND (deliver s (.Request r))
  | fetched (s : SysState) (r : Resource) (data : CachedResource) :
      ReachableND s → 0 < s.inflight r →
      ReachableND (deliver s (.Fetched r data))
  | fetchErr (s : SysState) (r : Resource) (kind : ErrorKind) :
      ReachableND s → 0 < s.inflight r →
      ReachableND (deliver s (.Error r kind))
  | markDirty (s : SysState) (r : Resource) :
      ReachableND s → s.inflight r = 0 →
      ReachableND (deliver s (.MarkDirty r))

/-- The dedup invariant: per key at most one fetch is in flight, and a key
with an in-flight fetch is Pending or `BeingRefetched`. -/
def DedupInv (s : SysState) : Prop :=
  ∀ k, s.inflight k ≤ 1 ∧
    (s.inflight k = 1 →
      s.store k = some .WillBeFetched ∨
      ∃ cr, s.store k = some (.Fetched cr) ∧ cr.freshness = .BeingRefetched)

lemma dedupInv_init : DedupInv initSys := by
  intro k
  exact ⟨Nat.zero_le 1, by simp [initSys]⟩

lemma dedupInv_request (s : SysState) (r : Resource) (h : DedupInv s) :
    DedupInv (deliver s (.Request r)) := by
  rcases hsr : s.store r with _ | e
  · -- no entry: Pending is created and a fetch dispatched; the key had no
    -- fetch in flight because the invariant ties in-flight to an entry
    have h0 : s.inflight r = 0 := by
      rcases Nat.lt_or_ge (s.inflight r) 1 with h1 | h1
      · omega
      · have := (h r).2 (Nat.le_antisymm (h r).1 h1)
        rcases this with hc | ⟨cr, hc, _⟩ <;> rw [hsr] at hc <;> cases hc
    intro k
    by_cases hk : k = r <;>
      simp [deliver, update, hsr, bumpUp, Store.insert, hk, h0]
    exact h k
  · rcases e with _ | cr
    · intro k
      simpa [deliver, update, hsr] using h k
    · rcases hf : cr.freshness with _ | _ | _
      · intro k
        simpa [deliver, update, hsr, hf] using h k
      · -- Dirty: transition to BeingRefetched and dispatch; no fetch was
        -- in flight since a Dirty entry is neither Pending nor refetching
        have h0 : s.inflight r = 0 := by
          rcases Nat.lt_or_ge (s.inflight r) 1 with h1 | h1
          · omega
          · have := (h r).2 (Nat.le_antisymm (h r).1 h1)
            rcases this with hc | ⟨cr', hc, hfr⟩ <;> rw [hsr] at hc
            · cases hc
            · cases hc
              rw [hf] at hfr
              cases hfr
        intro k
        by_cases hk : k = r <;>
          simp [deliver, update, hsr, hf, bumpUp, Store.insert, hk, h0]
        exact h k
      · intro k
        simpa [deliver, update, hsr, hf] using h k

lemma dedupInv_fetched (s : SysState) (r : Resource) (data : CachedResource)
    (h : DedupInv s) : DedupInv (deliver s (.Fetched r data)) := by
  intro k
  by_cases hk : k = r <;>
    simp [deliver, update, bumpDown, Store.insert, hk]
  · have := (h r).1
    omega
  · exact h k

lemma dedupInv_error (s : SysState) (r : Resource) (kind : ErrorKind)
    (h : DedupInv s) : DedupInv (deliver s (.Error r kind)) := by
  intro k
  by_cases hk : k = r <;>
    simp [deliver, update, bumpDown, Store.insert, hk]
  · have h1 := (h r).1
    constructor
    · omega
    · intro he
      have : s.inflight r = 2 := by omega
      omega
  · exact h k

lemma dedupInv_markDirty (s : SysState) (r : Resource)
    (h : DedupInv s) (h0 : s.inflight r = 0) :
    DedupInv (deliver s (.MarkDirty r)) := by
  rcases hsr : s.store r with _ | e
  · intro k
    simpa [deliver, update, hsr] using h k
  · rcases e with _ | cr
    · intro k
      simpa [deliver, update, hsr] using h k
    · intro k
      by_cases hk : k = r <;>
        simp [deliver, update, hsr, Store.insert, hk, h0]
      exact h k

lemma dedupInv_of_reachableND (s : SysState) (h : ReachableND s) :
    DedupInv s := by
  induction h with
  | init => exact dedupInv_init
  | request s r _ ih => exact dedupInv_request s r ih
  | fetched s r data _ _ ih => exact dedupInv_fetched s r data ih
  | fetchErr s r kind _ _ ih => exact dedupInv_error s r kind ih
  | markDirty s r _ h0 ih => exact dedupInv_markDirty s r ih h0

/-- Claim C3 (amended): at most one outstanding fetch per key holds in
every state reachable from the empty store, provided no mark-dirty message
is processed for a key while a fetch for it is in flight. (Unrestricted,
the claim fails: see the counterexample.) -/
theorem at_most_one_inflight (s : SysState) (h : ReachableND s)
    (k : Resource) : s.inflight k ≤ 1 :=
  (dedupInv_of_reachableND s h k).1

/-- Claim C3 witness: the bound after a first request. -/
theorem at_most_one_inflight_witness :
    (deliver initSys (.Request "a")).inflight "a" ≤ 1 :=
  at_most_one_inflight (deliver initSys (.Request "a"))
    (ReachableND.request initSys "a" ReachableND.init) "a"

/-- A fetched payload used by the C3 counterexample trace. -/
def c3data : CachedResource :=
  { raw := [], contentType := .Json, freshness := .Fresh,
    deserialized := ⟨0, 0⟩ }

/-- C3 counterexample trace: fetch "k", resolve it, mark dirty, refetch,
mark dirty again while the refetch is in flight, request again. -/
def c3s1 : SysState := deliver initSys (.Request "k")

def c3s2 : SysState := deliver c3s1 (.Fetched "k" c3data)

def c3s3 : SysState := deliver c3s2 (.MarkDirty "k")

def c3s4 : SysState := deliver c3s3 (.Request "k")

def c3s5 : SysState := deliver c3s4 (.MarkDirty "k")

def c3s6 : SysState := deliver c3s5 (.Request "k")

/-- Claim C3 counterexample: a reachable state in which a fetch command
for "k" is dispatched while the fetch dispatched earlier for "k" is still
unresolved — a mark-dirty interleaved with the in-flight refetch demotes
`BeingRefetched` to Dirty, and the next request dispatches again, leaving
two outstanding fetches for "k". -/
theorem second_fetch_while_inflight :
    Reachable c3s6 ∧ c3s5.inflight "k" = 1 ∧
    (update c3s5.store (.Request "k")).2 = [Eff.performFetch "k"] ∧
    c3s6.inflight "k" = 2 := by
  refine ⟨?_, by decide, by decide, by decide⟩
  have h1 : Reachable c3s1 := Reachable.request initSys "k" Reachable.init
  have h2 : Reachable c3s2 :=
    Reachable.fetched c3s1 "k" c3data h1 (by decide)
  have h3 : Reachable c3s3 := Reachable.markDirty c3s2 "k" h2
  have h4 : Reachable c3s4 := Reachable.request c3s3 "k" h3
  have h5 : Reachable c3s5 := Reachable.markDirty c3s4 "k" h4
  exact Reachable.request c3s5 "k" h5

/-- Claim C4 (amended): when the fetch for a key that was never
successfully fetched resolves in an error, the slot stays Pending (still
observed as `NotFetched`), and the next `acquire` returns
`Err(NotFetched)` and dispatches nothing — there is no natural retry. -/
theorem error_keeps_pending_no_retry (store : Store) (k : Resource)
    (kind : ErrorKind) (T : Nat) (policy : CachePolicy)
    (h : store k = some .WillBeFetched) :
    (update store (.Error k kind)).1 k = some CacheEntry.WillBeFetched ∧
    acquire (update store (.Error k kind)).1 k T policy =
      some (.error .NotFetched, []) := by
  refine ⟨by simp [update, h], ?_⟩
  simp [update, acquire, acquire_and_fetch, h, Except.bind]

/-- Claim C4 witness: the amended behaviour at a concrete Pending slot. -/
theorem error_keeps_pending_no_retry_witness :
    (update (Store.empty.insert "q" .WillBeFetched)
        (.Error "q" .FetchError)).1 "q" = some CacheEntry.WillBeFetched ∧
    acquire (update (Store.empty.insert "q" .WillBeFetched)
        (.Error "q" .FetchError)).1 "q" 0 .MustBeFresh =
      some (.error .NotFetched, []) :=
  error_keeps_pending_no_retry (Store.empty.insert "q" .WillBeFetched)
    "q" .FetchError 0 .MustBeFresh (by decide)

/-- C4 counterexample trace: request "q", then its fetch fails. -/
def c4s1 : SysState := deliver initSys (.Request "q")

def c4s2 : SysState := deliver c4s1 (.Error "q" .FetchError)

/-- Claim C4 counterexample: after the fetch for the never-fetched key "q"
resolves in an error, the slot is not absent — it is Pending — and the
next `acquire` dispatches no new fetch request, contrary to the claimed
natural retry. -/
theorem error_slot_not_absent :
    Reachable c4s2 ∧
    c4s2.store "q" = some CacheEntry.WillBeFetched ∧
    acquire c4s2.store "q" 0 .MustBeFresh =
      some (.error .NotFetched, []) := by
  refine ⟨?_, by decide, by decide⟩
  exact Reachable.fetchErr c4s1 "q" .FetchError
    (Reachable.request initSys "q" Reachable.init) (by decide)

end SeedFetcher
